import Mathlib

/-!
Verification of `nipype/interfaces/spm.py` against its specification.

The file shallowly embeds the algorithmic core of the module:
the recursive job serializer `generate_job`, the frame enumerator
`scans_for_fname`, the `Realign._parseinputs` option normalizer, the
job-type (structural variant) selection of the `_compile_command`
methods, the structured-data dispatcher `run_jobdef`, and the result
construction of the `run` methods.  Python runtime behaviour that the
claims depend on (exceptions, `try/finally` with `return`, name
resolution) is made explicit.
-/

namespace Spm

/-- Python exceptions raised (or raisable) by the embedded code.
`nameError` also covers `UnboundLocalError`, its subclass. -/
inductive PyErr where
  | valueError : String → PyErr
  | nameError : String → PyErr
  | typeError : String → PyErr
  | attributeError : String → PyErr
  | keyError : String → PyErr
  | indexError : Nat → PyErr
deriving Repr, DecidableEq

/-! ### Job serializer (`generate_job`, spm.py lines 56-85)

`generate_job(prefix, contents)` branches on the runtime type of
`contents`: Python `list`, Python `dict`, numpy object array of
filename strings, `str`, and any other scalar (rendered via `str()`).
The embedding turns that type dispatch into a sum type.  A Python
`dict` is modelled as an association list whose order is the iteration
order of `contents.items()`. -/
inductive Contents where
  | list : List Contents → Contents
  | dict : List (String × Contents) → Contents
  | nparray : List String → Contents
  | str : String → Contents
  | other : String → Contents
deriving Repr

/-- Concatenation of a list of strings, in order (the `jobstring +=`
accumulation of the source). -/
def concatAll : List String → String
  | [] => ""
  | s :: rest => s ++ concatAll rest

mutual

/-- Embedding of `generate_job` (spm.py lines 56-85).  The `other`
constructor carries the `str()` rendering of a non-string scalar,
which is all `generate_job` uses of such a value. -/
def generate_job : String → Contents → String
  | pfx, Contents.list xs => genIndexed pfx 1 xs
  | pfx, Contents.dict kvs => genKeyed pfx kvs
  | pfx, Contents.nparray items =>
      pfx ++ " = \x7b...\n" ++
        concatAll (items.map (fun item => "\x27" ++ item ++ "\x27;...\n")) ++
        "\x7d;\n"
  | pfx, Contents.str s => pfx ++ " = \x27" ++ s ++ "\x27;\n"
  | pfx, Contents.other r => pfx ++ " = " ++ r ++ ";\n"

/-- The `for i,value in enumerate(contents)` loop of `generate_job`:
`i` starts at 0 and the emitted index is `i+1`, so this helper carries
the 1-based index directly. -/
def genIndexed : String → Nat → List Contents → String
  | _, _, [] => ""
  | pfx, i, v :: rest =>
      generate_job (pfx ++ "(" ++ toString i ++ ")") v ++ genIndexed pfx (i + 1) rest

/-- The `for key,value in contents.items()` loop of `generate_job`. -/
def genKeyed : String → List (String × Contents) → String
  | _, [] => ""
  | pfx, (k, v) :: rest =>
      generate_job (pfx ++ "." ++ k) v ++ genKeyed pfx rest

end

theorem genIndexed_eq_enumFrom (vs : List Contents) (pfx : String) (i : Nat) :
    genIndexed pfx i vs =
      concatAll ((List.enumFrom i vs).map
        (fun iv => generate_job (pfx ++ "(" ++ toString iv.1 ++ ")") iv.2)) := by
  induction vs generalizing i with
  | nil => simp [genIndexed, List.enumFrom, concatAll]
  | cons v rest ih =>
      simp [genIndexed, List.enumFrom, concatAll, ih]

theorem genKeyed_eq_map (kvs : List (String × Contents)) (pfx : String) :
    genKeyed pfx kvs =
      concatAll (kvs.map (fun kv => generate_job (pfx ++ "." ++ kv.1) kv.2)) := by
  induction kvs with
  | nil => simp [genKeyed, concatAll]
  | cons kv rest ih => simp [genKeyed, concatAll, ih]

theorem genIndexed_strs (ss : List String) (pfx : String) (i : Nat) :
    genIndexed pfx i (ss.map Contents.str) =
      concatAll ((List.enumFrom i ss).map
        (fun is => (pfx ++ "(" ++ toString is.1 ++ ")") ++ " = \x27" ++ is.2 ++ "\x27;\n")) := by
  induction ss generalizing i with
  | nil => simp [genIndexed, List.enumFrom, concatAll]
  | cons s rest ih =>
      simp [genIndexed, List.enumFrom, concatAll, ih, generate_job]

/-- C1: serializing an ordered sequence emits, in order, the
serializations of its elements under prefixes `p(1)`..`p(N)`
(1-based); serializing a keyed mapping emits the serializations of its
values under `p.key` in the mapping's iteration (insertion) order; and
a length-N sequence of string scalars yields exactly the N assignments
with indices 1..N in order. -/
theorem generate_job_groups (p : String) (vs : List Contents)
    (kvs : List (String × Contents)) (ss : List String) :
    generate_job p (Contents.list vs) =
      concatAll ((List.enumFrom 1 vs).map
        (fun iv => generate_job (p ++ "(" ++ toString iv.1 ++ ")") iv.2)) ∧
    generate_job p (Contents.dict kvs) =
      concatAll (kvs.map (fun kv => generate_job (p ++ "." ++ kv.1) kv.2)) ∧
    generate_job p (Contents.list (ss.map Contents.str)) =
      concatAll ((List.enumFrom 1 ss).map
        (fun is => (p ++ "(" ++ toString is.1 ++ ")") ++ " = \x27" ++ is.2 ++ "\x27;\n")) := by
  refine ⟨?_, ?_, ?_⟩
  · simp [generate_job, genIndexed_eq_enumFrom]
  · simp [generate_job, genKeyed_eq_map]
  · simp [generate_job, genIndexed_strs]

/-- C2: leaf emission of the serializer: a string scalar is emitted
single-quoted with a trailing `;` and newline; any other scalar is
emitted via its textual form with no quoting; a string-array leaf is
one assignment whose right-hand side is a brace-delimited list with
one single-quoted string per line. -/
theorem generate_job_leaves (p s r : String) (items : List String) :
    generate_job p (Contents.str s) = p ++ " = \x27" ++ s ++ "\x27;\n" ∧
    generate_job p (Contents.other r) = p ++ " = " ++ r ++ ";\n" ∧
    generate_job p (Contents.nparray items) =
      p ++ " = \x7b...\n" ++
        concatAll (items.map (fun item => "\x27" ++ item ++ "\x27;...\n")) ++
        "\x7d;\n" := by
  refine ⟨?_, ?_, ?_⟩ <;> simp [generate_job]

/-! ### Frame enumerator (`scans_for_fname`, spm.py lines 149-160)

The source inspects `img.get_shape()`.  The shape is passed here
explicitly (the image reader is an external collaborator).  In the
3-dimensional branch the source evaluates
`scans = np.zeros((n_scans, 1), dtype=object)` — but `n_scans` is a
local variable that is only assigned in the `else` branch, so this
read raises `UnboundLocalError` (a `NameError`).  In the `else`
branch, `img.get_shape()[3]` raises `IndexError` when the shape has
fewer than 4 entries. -/
def scans_for_fname (fname : String) (shape : List Nat) : Except PyErr (List String) :=
  if shape.length == 3 then
    Except.error (PyErr.nameError "n_scans")
  else
    match shape.get? 3 with
    | none => Except.error (PyErr.indexError 3)
    | some n_scans =>
        Except.ok ((List.range n_scans).map (fun sno => fname ++ "," ++ toString (sno + 1)))

/-- C3 (code bug): on a 3-dimensional volume `scans_for_fname` does
not return one FrameReference — it raises `UnboundLocalError` because
`n_scans` is read before any assignment.  The 4-dimensional part of
the claim holds: a volume with N frames along the 4th axis yields the
N references `"<path>,1"` .. `"<path>,N"` in order (120 frames give
120 references indexed 1..120). -/
theorem scans_for_fname_3d_bug_and_4d (fname : String) (d0 d1 d2 n : Nat) :
    scans_for_fname "a.nii" [64, 64, 32] = Except.error (PyErr.nameError "n_scans") ∧
    scans_for_fname fname [d0, d1, d2, n] =
      Except.ok ((List.range n).map (fun sno => fname ++ "," ++ toString (sno + 1))) ∧
    ((List.range n).map (fun sno => fname ++ "," ++ toString (sno + 1))).length = n ∧
    scans_for_fname "f.nii" [2, 2, 2, 120] =
      Except.ok ((List.range 120).map (fun sno => "f.nii," ++ toString (sno + 1))) := by
  refine ⟨rfl, ?_, by simp, rfl⟩
  simp [scans_for_fname]

/-! ### Structural variant selection (`_compile_command`)

`Realign._compile_command` (lines 382-385) and
`Coregister._compile_command` (lines 584-587) set
`jobtype = 'estwrite'` when `self.inputs.write` is truthy and
`jobtype = 'estimate'` otherwise; `Normalize._compile_command`
(lines 817-820) uses `'estwrite'` / `'est'`. -/
def realignJobtype (write : Bool) : String :=
  if write then "estwrite" else "estimate"

def coregJobtype (write : Bool) : String :=
  if write then "estwrite" else "estimate"

def normalizeJobtype (write : Bool) : String :=
  if write then "estwrite" else "est"

/-- C7: for each operation, the boolean "also produce transformed
output" flag selects between exactly two structural variant names:
`false` gives the estimate-only name (`estimate` for Realign and
Coregister, `est` for Normalize), `true` gives the
estimate-and-write name (`estwrite`). -/
theorem jobtype_variant_selection (b : Bool) :
    (realignJobtype false = "estimate" ∧ realignJobtype true = "estwrite") ∧
    (coregJobtype false = "estimate" ∧ coregJobtype true = "estwrite") ∧
    (normalizeJobtype false = "est" ∧ normalizeJobtype true = "estwrite") ∧
    (realignJobtype b = "estimate" ∨ realignJobtype b = "estwrite") ∧
    (coregJobtype b = "estimate" ∨ coregJobtype b = "estwrite") ∧
    (normalizeJobtype b = "est" ∨ normalizeJobtype b = "estwrite") := by
  cases b <;> simp [realignJobtype, coregJobtype, normalizeJobtype]

/-! ### Structured-data dispatcher (`run_jobdef`, spm.py lines 135-147)

```
try:
    savemat('pyjobs.mat', jobdef)
    matlab_out = mlab.run_matlab_script(...)
    return matlab_out
finally:
    print 'Failed to run jobdef'
    return None
```

In Python, a `return` inside a `finally` block runs unconditionally:
it replaces the `try` block's return value and discards any exception
propagating out of the `try` block.  The two fallible effects
(`savemat`, `run_matlab_script`) are passed in as their outcomes. -/
def pyTryFinallyReturn (body : Except PyErr α) (v : α) : Except PyErr α :=
  match body with
  | Except.ok _ => Except.ok v
  | Except.error _ => Except.ok v

def run_jobdef (saveResult : Except PyErr Unit) (scriptResult : Except PyErr String) :
    Except PyErr (Option String) :=
  pyTryFinallyReturn
    (do
      saveResult
      let matlab_out ← scriptResult
      pure (some matlab_out))
    none

/-- C9: `run_jobdef` returns `None` on every input: the `return None`
in the `finally` block overrides the `try` block's return of the
captured engine output and suppresses any exception raised by the
save or the script run. -/
theorem run_jobdef_always_none (save : Except PyErr Unit) (script : Except PyErr String) :
    run_jobdef save script = Except.ok none := by
  cases save <;> cases script <;> rfl

/-- C8 (code bug): when the save or the external engine run fails,
`run_jobdef` does not surface the failure — it returns `None` exactly
as on the success path, so the caller cannot observe the error. -/
theorem run_jobdef_swallows_failure (e : PyErr) (out : String) :
    run_jobdef (Except.error e) (Except.ok out) = Except.ok none ∧
    run_jobdef (Except.ok ()) (Except.error e) = Except.ok none ∧
    run_jobdef (Except.error e) (Except.error e) = Except.ok none := by
  exact ⟨rfl, rfl, rfl⟩

/-! ### Option normalizer (`Realign._parseinputs`, spm.py lines 298-355)

Python values as they occur in option sets.  A `dict` is an
association list in iteration order (the claims settled below are
insensitive to the order CPython happens to iterate in: they use
single-option sets or sets of options with pairwise distinct target
keys). -/
inductive PyVal where
  | int : Int → PyVal
  | float : Rat → PyVal
  | bool : Bool → PyVal
  | str : String → PyVal
  | list : List PyVal → PyVal
  | dict : List (String × PyVal) → PyVal
deriving Repr

/-- `d[k] = v` semantics used by `dict.update({k: v})`: overwrite an
existing key in place, otherwise append. -/
def dictUpdate1 (d : List (String × PyVal)) (k : String) (v : PyVal) :
    List (String × PyVal) :=
  if d.any (fun kv => kv.1 == k) then
    d.map (fun kv => if kv.1 == k then (kv.1, v) else kv)
  else d ++ [(k, v)]

/-- `einputs[k].update({sub: v})`: look up the top-level key, require
a dict there, update the sub-key.  A missing top-level key raises
`KeyError`; `.update` on a non-dict raises `AttributeError`. -/
def subUpdate (einputs : List (String × PyVal)) (k sub : String) (v : PyVal) :
    Except PyErr (List (String × PyVal)) :=
  match einputs.find? (fun kv => kv.1 == k) with
  | some kv =>
      match kv.2 with
      | PyVal.dict d => Except.ok (dictUpdate1 einputs k (PyVal.dict (dictUpdate1 d sub v)))
      | _ => Except.error (PyErr.attributeError "update")
  | none => Except.error (PyErr.keyError k)

/-- `einputs.update(v)` for the `flags` escape hatch: merge a dict
wholesale into the top level. -/
def pyDictMerge (d : List (String × PyVal)) (v : PyVal) :
    Except PyErr (List (String × PyVal)) :=
  match v with
  | PyVal.dict kvs => Except.ok (kvs.foldl (fun acc kv => dictUpdate1 acc kv.1 kv.2) d)
  | _ => Except.error (PyErr.typeError "update expects a mapping")

/-- Python `float(v)`.  Numeric-string parsing is outside the model:
the schemas only apply `float` to numeric option values. -/
def pyFloat : PyVal → Except PyErr PyVal
  | PyVal.int n => Except.ok (PyVal.float n)
  | PyVal.float q => Except.ok (PyVal.float q)
  | PyVal.bool b => Except.ok (PyVal.float (if b then 1 else 0))
  | PyVal.str _ => Except.error (PyErr.valueError "could not convert string to float")
  | _ => Except.error (PyErr.typeError "float() argument")

/-- Python `int(v)`, same caveat as `pyFloat`. -/
def pyInt : PyVal → Except PyErr PyVal
  | PyVal.int n => Except.ok (PyVal.int n)
  | PyVal.float q => Except.ok (PyVal.int q.floor)
  | PyVal.bool b => Except.ok (PyVal.int (if b then 1 else 0))
  | PyVal.str _ => Except.error (PyErr.valueError "invalid literal for int()")
  | _ => Except.error (PyErr.typeError "int() argument")

/-- Python `len(v)`. -/
def pyLen : PyVal → Except PyErr Nat
  | PyVal.list xs => Except.ok xs.length
  | PyVal.str s => Except.ok s.length
  | PyVal.dict kvs => Except.ok kvs.length
  | _ => Except.error (PyErr.typeError "object has no len()")

/-- The option names tested by the `Realign._parseinputs` if-chain
(the operation's schema). -/
def realignRecognized : List String :=
  ["flags", "infile", "write", "quality", "fwhm", "separation", "register_to_mean",
   "weight_img", "interp", "wrap", "write_which", "write_interp", "write_wrap",
   "write_mask"]

/-- Perform one schema update: evaluate the (possibly coercing)
value, then place it under `einputs[k][sub]`.  No diagnostic is
emitted on this path. -/
def stepUpdate (einputs : List (String × PyVal)) (k sub : String)
    (v : Except PyErr PyVal) : Except PyErr (List (String × PyVal) × List String) :=
  match v with
  | Except.error e => Except.error e
  | Except.ok q =>
      match subUpdate einputs k sub q with
      | Except.error e => Except.error e
      | Except.ok d => Except.ok (d, [])

/-- One iteration of the `for opt in inputs:` loop of
`Realign._parseinputs` (spm.py lines 307-354).  Returns the updated
`einputs` together with the diagnostics printed by this iteration.
The source compares option names with `is`; the names involved are
interned string literals, so this is string equality.  Each branch
after the first ends in `continue` and the tested names are pairwise
distinct, so the chain is an if/else-if cascade.  Note the `flags`
branch has no `continue`: after merging, control falls through past
the remaining (non-matching) tests to the trailing
`print 'option %s not supported'`. -/
def realignStep (einputs : List (String × PyVal)) (opt : String) (v : PyVal) :
    Except PyErr (List (String × PyVal) × List String) :=
  match (if opt == "flags" then pyDictMerge einputs v else Except.ok einputs) with
  | Except.error e => Except.error e
  | Except.ok einputs =>
      if opt == "infile" then Except.ok (einputs, [])
      else if opt == "write" then Except.ok (einputs, [])
      else if opt == "quality" then stepUpdate einputs "eoptions" "quality" (pyFloat v)
      else if opt == "fwhm" then stepUpdate einputs "eoptions" "fwhm" (pyFloat v)
      else if opt == "separation" then stepUpdate einputs "eoptions" "sep" (pyFloat v)
      else if opt == "register_to_mean" then
        stepUpdate einputs "eoptions" "rtm" (Except.ok (PyVal.int 1))
      else if opt == "weight_img" then stepUpdate einputs "eoptions" "weight" (Except.ok v)
      else if opt == "interp" then stepUpdate einputs "eoptions" "interp" (pyFloat v)
      else if opt == "wrap" then
        match pyLen v with
        | Except.error e => Except.error e
        | Except.ok n =>
            if n ≠ 3 then Except.error (PyErr.valueError "wrap must have 3 elements")
            else stepUpdate einputs "eoptions" "wrap" (Except.ok v)
      else if opt == "write_which" then
        match pyLen v with
        | Except.error e => Except.error e
        | Except.ok n =>
            if n ≠ 2 then Except.error (PyErr.valueError "write_which must have 2 elements")
            else stepUpdate einputs "roptions" "which" (Except.ok v)
      else if opt == "write_interp" then stepUpdate einputs "roptions" "interp" (Except.ok v)
      else if opt == "write_wrap" then
        match pyLen v with
        | Except.error e => Except.error e
        | Except.ok n =>
            if n ≠ 3 then Except.error (PyErr.valueError "write_wrap must have 3 elements")
            else stepUpdate einputs "roptions" "wrap" (Except.ok v)
      else if opt == "write_mask" then stepUpdate einputs "roptions" "mask" (pyInt v)
      else Except.ok (einputs, ["option " ++ opt ++ " not supported"])

/-- The `for opt in inputs:` loop itself: thread `einputs` through
the iterations, concatenating diagnostics; the first raised exception
aborts the loop. -/
def realignLoop (einputs : List (String × PyVal)) :
    List (String × PyVal) → Except PyErr (List (String × PyVal) × List String)
  | [] => Except.ok (einputs, [])
  | (opt, v) :: rest =>
      match realignStep einputs opt v with
      | Except.error e => Except.error e
      | Except.ok r =>
          match realignLoop r.1 rest with
          | Except.error e => Except.error e
          | Except.ok r2 => Except.ok (r2.1, r.2 ++ r2.2)

/-- `Realign._parseinputs`: `inputs` is the dict of options whose
value is not `None`, as an association list in iteration order;
`einputs` starts as `{'eoptions':{},'roptions':{}}`.  The result
pairs the final `einputs` with the accumulated diagnostics. -/
def realign_parseinputs (inputs : List (String × PyVal)) :
    Except PyErr (List (String × PyVal) × List String) :=
  realignLoop [("eoptions", PyVal.dict []), ("roptions", PyVal.dict [])] inputs

theorem realignStep_unrecognized (einputs : List (String × PyVal)) (bad : String)
    (v : PyVal) (h : bad ∉ realignRecognized) :
    realignStep einputs bad v = Except.ok (einputs, ["option " ++ bad ++ " not supported"]) := by
  have hne : ∀ s, s ∈ realignRecognized → (bad == s) = false := by
    intro s hs
    exact beq_eq_false_iff_ne.mpr (fun he => h (by rw [he]; exact hs))
  have h1 := hne "flags" (by simp [realignRecognized])
  have h2 := hne "infile" (by simp [realignRecognized])
  have h3 := hne "write" (by simp [realignRecognized])
  have h4 := hne "quality" (by simp [realignRecognized])
  have h5 := hne "fwhm" (by simp [realignRecognized])
  have h6 := hne "separation" (by simp [realignRecognized])
  have h7 := hne "register_to_mean" (by simp [realignRecognized])
  have h8 := hne "weight_img" (by simp [realignRecognized])
  have h9 := hne "interp" (by simp [realignRecognized])
  have h10 := hne "wrap" (by simp [realignRecognized])
  have h11 := hne "write_which" (by simp [realignRecognized])
  have h12 := hne "write_interp" (by simp [realignRecognized])
  have h13 := hne "write_wrap" (by simp [realignRecognized])
  have h14 := hne "write_mask" (by simp [realignRecognized])
  simp [realignStep, h1, h2, h3, h4, h5, h6, h7, h8, h9, h10, h11, h12, h13, h14]

/-- C5: an option whose name is not in the Realign schema never makes
normalization raise, contributes no key to the normalized fragment,
and only emits a non-fatal unsupported-option diagnostic; the
remaining options are still processed exactly as without it. -/
theorem realign_unrecognized_skipped (bad : String) (v : PyVal)
    (inputs : List (String × PyVal)) (h : bad ∉ realignRecognized) :
    realign_parseinputs ((bad, v) :: inputs) =
      (realign_parseinputs inputs).map
        (fun r => (r.1, ("option " ++ bad ++ " not supported") :: r.2)) := by
  unfold realign_parseinputs
  rw [realignLoop, realignStep_unrecognized _ bad v h]
  cases hrest : realignLoop [("eoptions", PyVal.dict []), ("roptions", PyVal.dict [])]
      inputs with
  | error err => simp [hrest, Except.map]
  | ok r2 => simp [hrest, Except.map]

/-- Witness for C5 at a concrete unrecognized option. -/
theorem realign_unrecognized_witness :
    realign_parseinputs [("bogus", PyVal.int 1)] =
      Except.ok ([("eoptions", PyVal.dict []), ("roptions", PyVal.dict [])],
        ["option bogus not supported"]) := by
  have h := realign_unrecognized_skipped "bogus" (PyVal.int 1) [] (by decide)
  simpa [realign_parseinputs, realignLoop, Except.map] using h

/-- C4 counterexample: supplying `wrap` as a 2-element list raises
`ValueError` with message `"wrap must have 3 elements"`, which is not
of the claimed form `"wrap must have exactly 3 elements"`. -/
theorem realign_wrap_message_counterexample :
    realign_parseinputs [("wrap", PyVal.list [PyVal.int 0, PyVal.int 0])] =
      Except.error (PyErr.valueError "wrap must have 3 elements") ∧
    "wrap must have 3 elements" ≠ "wrap must have exactly 3 elements" := by
  exact ⟨rfl, by decide⟩

/-- C4 (amended): a `wrap` value whose length is not 3 makes
normalization raise `ValueError` with message
`"wrap must have 3 elements"` (mentioning the option name and the
required count, but without the word "exactly"), and a `wrap` value
of exactly 3 elements, set alone, never raises. -/
theorem realign_wrap_length_check (xs : List PyVal) :
    (xs.length ≠ 3 → realign_parseinputs [("wrap", PyVal.list xs)] =
       Except.error (PyErr.valueError "wrap must have 3 elements")) ∧
    (xs.length = 3 → realign_parseinputs [("wrap", PyVal.list xs)] =
       Except.ok ([("eoptions", PyVal.dict [("wrap", PyVal.list xs)]),
                   ("roptions", PyVal.dict [])], [])) := by
  constructor
  · intro h
    simp [realign_parseinputs, realignLoop, realignStep, stepUpdate, pyLen, h,
      subUpdate, dictUpdate1]
  · intro h
    simp [realign_parseinputs, realignLoop, realignStep, stepUpdate, pyLen, h,
      subUpdate, dictUpdate1, List.find?]

/-- Witness for C4's amended theorem at concrete wrong-length and
right-length inputs. -/
theorem realign_wrap_length_witness :
    realign_parseinputs [("wrap", PyVal.list [PyVal.int 0, PyVal.int 0])] =
      Except.error (PyErr.valueError "wrap must have 3 elements") ∧
    realign_parseinputs
        [("wrap", PyVal.list [PyVal.int 0, PyVal.int 0, PyVal.int 1])] =
      Except.ok ([("eoptions", PyVal.dict
          [("wrap", PyVal.list [PyVal.int 0, PyVal.int 0, PyVal.int 1])]),
          ("roptions", PyVal.dict [])], []) :=
  ⟨(realign_wrap_length_check [PyVal.int 0, PyVal.int 0]).1 (by decide),
   (realign_wrap_length_check [PyVal.int 0, PyVal.int 0, PyVal.int 1]).2 (by decide)⟩

/-- C6: normalizing exactly `fwhm = 5.0`, `separation = 4.0`,
`wrap = [0,0,1]` yields `eoptions = {fwhm: 5.0, sep: 4.0,
wrap: [0,0,1]}` (`separation` renamed to `sep`, floats coerced) and
empty `roptions`, with no diagnostics. -/
theorem realign_scenario_eoptions :
    realign_parseinputs
        [("fwhm", PyVal.float 5), ("separation", PyVal.float 4),
         ("wrap", PyVal.list [PyVal.int 0, PyVal.int 0, PyVal.int 1])] =
      Except.ok ([("eoptions", PyVal.dict
          [("fwhm", PyVal.float 5), ("sep", PyVal.float 4),
           ("wrap", PyVal.list [PyVal.int 0, PyVal.int 0, PyVal.int 1])]),
          ("roptions", PyVal.dict [])], []) := by
  rfl

/-! ### The `run` methods (spm.py lines 357-374, 559-576, 792-809, 923-940)

`Realign.run`, `Coregister.run`, `Normalize.run` and `Smooth.run` are
textually identical except for the script name passed to the external
engine.  After compiling and dispatching the job, each builds

```
outputs = Bunch(outfiles = fnames_prefix(self.inputs.infile,'r'))
output = Bunch(returncode=returncode, stdout=out, stderr=err, ...)
```

Python resolves each bare name in local scope, then module scope,
then builtins.  The names bound in module scope are the imports and
top-level definitions of spm.py; the locals of `run` at this point
are `self`, `mfile`, `job`, `out`, `cmdline`.  The module defines
`fname_presuffix` and `fnames_presuffix` but no `fnames_prefix`, and
nothing ever binds `returncode` or `err`, so the construction fails
on the first of these names it evaluates. -/
def spmModuleGlobals : List String :=
  ["Bunch", "CommandLine", "Interface", "setattr_on_read", "load", "fltcols",
   "matlab", "savemat", "np", "os", "InTemporaryDirectory", "mlab", "SpmInfo",
   "spm_info", "make_job", "generate_job", "make_mfile", "make_mfile_old",
   "run_jobdef", "scans_for_fname", "scans_for_fnames", "fname_presuffix",
   "fnames_presuffix", "Realign", "Coregister", "Normalize", "Smooth"]

def runLocalNames : List String :=
  ["self", "mfile", "job", "out", "cmdline"]

def pyBuiltinNames : List String :=
  ["float", "int", "len", "type", "str", "enumerate", "range", "file", "open",
   "list", "dict", "object", "True", "False", "None", "ValueError", "NameError"]

def runEnv : List String := runLocalNames ++ spmModuleGlobals ++ pyBuiltinNames

/-- The `Outcome` the spec says `run` should produce (only its engine
output matters for the claims settled here). -/
structure Outcome where
  stdout : Option String
deriving Repr, DecidableEq

/-- Embedding of the `run` methods.  `compileJob` is the outcome of
`self._compile_command(mfile)`; `scriptResult` that of
`mlab.run_matlab_script`; `saveResult` that of `savemat` (used by the
`mfile=False` branch through `run_jobdef`).  The result construction
evaluates, in source order, the unbound-prone names
`fnames_prefix`, `returncode`, `err`; the first that is not in
`runEnv` raises `NameError`. -/
def interfaceRun (compileJob : Except PyErr Unit) (mfile : Bool)
    (saveResult : Except PyErr Unit) (scriptResult : Except PyErr String) :
    Except PyErr Outcome :=
  match compileJob with
  | Except.error e => Except.error e
  | Except.ok _ =>
      let dispatched : Except PyErr (Option String) :=
        if mfile then
          match scriptResult with
          | Except.error e => Except.error e
          | Except.ok o => Except.ok (some o)
        else run_jobdef saveResult scriptResult
      match dispatched with
      | Except.error e => Except.error e
      | Except.ok out =>
          match ["fnames_prefix", "returncode", "err"].find?
              (fun n => !runEnv.contains n) with
          | some n => Except.error (PyErr.nameError n)
          | none => Except.ok (Outcome.mk out)

/-- C10: `run` never returns an `Outcome`.  Whenever compilation and
dispatch succeed (which in the `mfile=False` branch is always, since
`run_jobdef` swallows its own failures), the result construction
raises `NameError` on `fnames_prefix`, the first of the undefined
names it references. -/
theorem run_never_returns_outcome (compileJob : Except PyErr Unit) (mfile : Bool)
    (saveResult : Except PyErr Unit) (scriptResult : Except PyErr String) :
    (interfaceRun compileJob mfile saveResult scriptResult).isOk = false ∧
    (∀ out : String, interfaceRun (Except.ok ()) true saveResult (Except.ok out) =
      Except.error (PyErr.nameError "fnames_prefix")) ∧
    interfaceRun (Except.ok ()) false saveResult scriptResult =
      Except.error (PyErr.nameError "fnames_prefix") := by
  refine ⟨?_, ?_, ?_⟩
  · cases compileJob with
    | error e => rfl
    | ok u =>
        cases mfile with
        | false => cases saveResult <;> cases scriptResult <;> rfl
        | true =>
            cases scriptResult with
            | error e => rfl
            | ok o => rfl
  · intro out
    rfl
  · cases saveResult <;> cases scriptResult <;> rfl

end Spm
